import Mathlib

/-!
Verification development for the git-manager session tool (src/main-pt-br.py).

The Python program is shallowly embedded: every function under scrutiny is
translated into an executable Lean definition.  External subprocess calls are
modelled by an environment `GitEnv : List String → RunOutcome` mapping a git
argument vector to the outcome the subprocess would produce; the commands a
flow issues are additionally collected as an explicit spawn trace
(`List (List String)`) so that ordering properties ("upstream-set before
push", "no process is spawned") become provable facts.  Python truthiness of
heterogeneous return values (`None`, `bool`, `CompletedProcess`) is modelled
by the inductive `RunGitRet` and the `pyTruthyRet` predicate.  Python string
primitives (`strip`, `split`, slicing, `in`, `lower`, `pathlib` suffix/name)
are re-implemented structurally on `List Char` so that all definitions
evaluate inside the kernel.
-/

/-- ASCII whitespace recognised by Python `str.strip()`. -/
def pyIsSpace (c : Char) : Bool :=
  c == ' ' || c == '\t' || c == '\n' || c == '\r' || c == '\x0b' || c == '\x0c'

/-- Python `s.strip()`: remove leading and trailing whitespace. -/
def pyStrip (s : String) : String :=
  ⟨((s.data.dropWhile pyIsSpace).reverse.dropWhile pyIsSpace).reverse⟩

/-- Split a character list at every occurrence of `c` (Python `str.split(c)`). -/
def splitOnChar (c : Char) : List Char → List (List Char)
  | [] => [[]]
  | x :: rest =>
    match splitOnChar c rest with
    | [] => [[]]
    | cur :: more => if x == c then [] :: cur :: more else (x :: cur) :: more

/-- Python `s.split('\n')`. -/
def pySplitLines (s : String) : List String :=
  (splitOnChar '\n' s.data).map (fun l => ⟨l⟩)

/-- Python slice `s[:n]`. -/
def pyTake (n : Nat) (s : String) : String := ⟨s.data.take n⟩

/-- Python slice `s[n:]`. -/
def pyDrop (n : Nat) (s : String) : String := ⟨s.data.drop n⟩

/-- Whether `needle` is a prefix of `hay` (character lists). -/
def isPrefixCh : List Char → List Char → Bool
  | [], _ => true
  | _ :: _, [] => false
  | a :: as, b :: bs => a == b && isPrefixCh as bs

/-- Whether `needle` occurs as a contiguous substring of `hay`. -/
def containsSub (needle : List Char) : List Char → Bool
  | [] => isPrefixCh needle []
  | c :: rest => isPrefixCh needle (c :: rest) || containsSub needle rest

/-- Python `needle in hay` on strings. -/
def pyInStr (needle hay : String) : Bool := containsSub needle.data hay.data

/-- Python `s.lower()` (ASCII, which covers every pattern the program uses). -/
def pyLower (s : String) : String := ⟨s.data.map Char.toLower⟩

/-- Python `pathlib.Path(f).name`: final path component ('/'-separated,
empty and `.` components ignored, as pathlib normalisation does). -/
def pathName (f : String) : String :=
  match ((splitOnChar '/' f.data).filter (fun part => part ≠ [] ∧ part ≠ ['.'])).getLast? with
  | some l => ⟨l⟩
  | none => ("")

/-- Index of the last `'.'` in a character list, if any. -/
def rfindDot (l : List Char) : Option Nat :=
  (l.reverse.findIdx? (fun c => c == '.')).map (fun j => l.length - 1 - j)

/-- Python `pathlib.Path(f).suffix`: the `.ext` part of the final component,
present only when the last dot is at an index `i` with `0 < i < len - 1`. -/
def pathSuffix (f : String) : String :=
  match rfindDot (pathName f).data with
  | some i =>
      if 0 < i ∧ i < (pathName f).data.length - 1 then ⟨(pathName f).data.drop i⟩ else ("")
  | none => ("")

/-- Lowercased suffix, i.e. the `Path(file).suffix.lower()` expression used
by `get_file_extension_stats`. -/
def fileExt (f : String) : String := pyLower (pathSuffix f)

/-- Result of a completed `subprocess.run` (text mode). -/
structure GitRes where
  returncode : Int
  stdout : String
  stderr : String
deriving DecidableEq

/-- Outcome of attempting to run the external git binary: a completed
process, a 30-second timeout (`subprocess.TimeoutExpired`), or a spawn
exception. -/
inductive RunOutcome where
  | res (r : GitRes)
  | timeout
  | exc
deriving DecidableEq

/-- The subprocess environment: what outcome each git argument vector
produces in the selected repository. -/
def GitEnv : Type := List String → RunOutcome

/-- The dynamic return value of Python `run_git`: `None` when no repository
is selected, the `CompletedProcess` when `return_output=True`, or a boolean
success flag otherwise (timeouts and spawn errors return `False` even when
`return_output=True`). -/
inductive RunGitRet where
  | noProject
  | output (r : GitRes)
  | ok (b : Bool)
deriving DecidableEq

/-- Python truthiness of a `run_git` return value: `None` is falsy, a
`CompletedProcess` is always truthy, a bool is itself. -/
def pyTruthyRet : RunGitRet → Bool
  | RunGitRet.noProject => false
  | RunGitRet.output _ => true
  | RunGitRet.ok b => b

/-- Model of `run_git(args, return_output=...)` from the source (the `show_output`
flag only controls console echo and is not modelled).  With no selected
repository it returns `None` without consulting the environment; otherwise
it runs git and converts the outcome exactly as the Python code does. -/
def run_git (repo : Option String) (env : GitEnv) (args : List String)
    (return_output : Bool) : RunGitRet :=
  match repo with
  | none => RunGitRet.noProject
  | some _ =>
    match env args with
    | RunOutcome.res r =>
        if return_output then RunGitRet.output r else RunGitRet.ok (r.returncode == 0)
    | RunOutcome.timeout => RunGitRet.ok false
    | RunOutcome.exc => RunGitRet.ok false

/-- The processes a single `run_git` call spawns: none when no repository is
selected, exactly one git process otherwise. -/
def run_git_spawns (repo : Option String) (args : List String) : List (List String) :=
  match repo with
  | none => []
  | some _ => [args]

/-- The categorised per-file change record built by `analyze_changes`. -/
structure ChangeSet where
  added : List String
  modified : List String
  deleted : List String
  renamed : List String
  total : Nat
deriving DecidableEq

/-- The four status categories of the first-match classification of the analyzer. -/
inductive FileCat where
  | added
  | modified
  | deleted
  | renamed
deriving DecidableEq

/-- First-match classification of one porcelain status line: the
two-character code `line[:2]` is tested for `A`, `M`, `D`, `R` in that fixed
order; a line matching none is classified `none`. -/
def lineClass (line : String) : Option FileCat :=
  if pyInStr ("A") (pyTake 2 line) = true then some FileCat.added
  else if pyInStr ("M") (pyTake 2 line) = true then some FileCat.modified
  else if pyInStr ("D") (pyTake 2 line) = true then some FileCat.deleted
  else if pyInStr ("R") (pyTake 2 line) = true then some FileCat.renamed
  else none

/-- Boolean form of `lineClass line = some c`, used as a filter predicate. -/
def isCat (c : FileCat) (line : String) : Bool := decide (lineClass line = some c)

/-- One iteration of the `for line in changes` loop in `analyze_changes`:
`status = line[:2]`, `filename = line[3:]`, append to the first matching
category list. -/
def analyzeStep (cs : ChangeSet) (line : String) : ChangeSet :=
  if pyInStr ("A") (pyTake 2 line) = true then
    { cs with added := cs.added ++ [pyDrop 3 line] }
  else if pyInStr ("M") (pyTake 2 line) = true then
    { cs with modified := cs.modified ++ [pyDrop 3 line] }
  else if pyInStr ("D") (pyTake 2 line) = true then
    { cs with deleted := cs.deleted ++ [pyDrop 3 line] }
  else if pyInStr ("R") (pyTake 2 line) = true then
    { cs with renamed := cs.renamed ++ [pyDrop 3 line] }
  else cs

/-- The categorisation loop of `analyze_changes` plus the final dictionary
construction with `total = len(changes)`. -/
def categorize (changes : List String) : ChangeSet :=
  { changes.foldl analyzeStep (ChangeSet.mk [] [] [] [] 0) with total := changes.length }

/-- Model of `analyze_changes` from the source: `None` when no repository is
selected, when the status command produced a falsy result, or when the
stripped porcelain output is empty; otherwise the categorised change set of
the output split into lines. -/
def analyze_changes (repo : Option String) (env : GitEnv) : Option ChangeSet :=
  match repo with
  | none => none
  | some p =>
    match run_git (some p) env ["status", "--porcelain"] true with
    | RunGitRet.output r =>
        if pyStrip r.stdout = "" then none
        else some (categorize (pySplitLines (pyStrip r.stdout)))
    | _ => none

/-- Character classes appearing in the regexes of the program: `\s` and `\w`. -/
inductive CClass where
  | space
  | word
deriving DecidableEq

/-- Elements of the (transliterated) regular expressions the classifier
uses: case-insensitive literals, the classes `\s`/`\w`, their `*`/`+`
repetitions, and the word boundary `\b`. -/
inductive RElem where
  | lit (c : Char)
  | cls (k : CClass)
  | star (k : CClass)
  | plus (k : CClass)
  | bound
deriving DecidableEq

/-- Membership in a character class (`re` ASCII semantics, which cover the
diff texts the theorems evaluate). -/
def inClass : CClass → Char → Bool
  | CClass.space, c => pyIsSpace c
  | CClass.word, c => c.isAlphanum || c == '_'

/-- Word character test for `\b`. -/
def isWordChar (c : Char) : Bool := inClass CClass.word c

/-- Match a transliterated pattern at the start of `hay` (with `prev` the
character just before the current position, for `\b`).  Repetitions are
greedy; in every pattern of the table the repeated class is disjoint from
what follows it, so greedy matching without backtracking coincides with
Python `re`.  Returns the new previous-character and the unmatched rest. -/
def matchAt : List RElem → Option Char → List Char → Option (Option Char × List Char)
  | [], prev, hay => some (prev, hay)
  | RElem.lit c :: es, _, hay =>
    match hay with
    | [] => none
    | x :: rest => if x.toLower == c.toLower then matchAt es (some x) rest else none
  | RElem.cls k :: es, _, hay =>
    match hay with
    | [] => none
    | x :: rest => if inClass k x then matchAt es (some x) rest else none
  | RElem.star k :: es, prev, hay =>
    matchAt es
      (match (hay.takeWhile (inClass k)).getLast? with
       | some c => some c
       | none => prev)
      (hay.dropWhile (inClass k))
  | RElem.plus k :: es, _, hay =>
    match hay with
    | [] => none
    | x :: rest =>
      if inClass k x then
        matchAt es
          (match (rest.takeWhile (inClass k)).getLast? with
           | some c => some c
           | none => some x)
          (rest.dropWhile (inClass k))
      else none
  | RElem.bound :: es, prev, hay =>
    let pw := match prev with
      | some c => isWordChar c
      | none => false
    let nw := match hay with
      | x :: _ => isWordChar x
      | [] => false
    if pw != nw then matchAt es prev hay else none

/-- The `re.findall` match counting: scan left to right, count a match and
resume after it, otherwise advance one character.  `fuel` is the length of
the scanned text (every step consumes at least one character).  A zero-width
match (impossible for the patterns of the table, all of which consume input)
counts and advances one character, as `re.findall` does. -/
def countAux (p : List RElem) : Nat → Option Char → List Char → Nat
  | 0, _, _ => 0
  | _, _, [] => 0
  | Nat.succ fuel, prev, c :: rest =>
    match matchAt p prev (c :: rest) with
    | some (prev2, rem) =>
        if rem.length = rest.length + 1 then 1 + countAux p fuel (some c) rest
        else 1 + countAux p fuel prev2 rem
    | none => countAux p fuel (some c) rest

/-- Number of `re.findall(pattern, s, re.IGNORECASE)` matches. -/
def countPattern (p : List RElem) (s : String) : Nat :=
  countAux p s.data.length none s.data

/-- A sequence of case-insensitive literal characters. -/
def lits (s : String) : List RElem := s.data.map RElem.lit

/-- Pattern `\b<word>\b`. -/
def bWord (s : String) : List RElem := [RElem.bound] ++ lits s ++ [RElem.bound]

/-- The `patterns` table of `analyze_diff_content`, transliterated pattern
by pattern (in source order).  `Char.ofNat 123` is the opening curly brace
of `try\s*{`. -/
def patternsTable : List (String × List (List RElem)) :=
  [(("bug_fixes"),
    [bWord ("fix"), bWord ("bug"), bWord ("error"), bWord ("issue"),
     lits (".catch("),
     lits ("try") ++ [RElem.star CClass.space, RElem.lit (Char.ofNat 123)],
     lits ("except:"),
     lits ("throw") ++ [RElem.plus CClass.space] ++ lits ("new"),
     lits ("console.error"), lits ("logger.error")]),
   (("features"),
    [bWord ("add"), bWord ("new"), bWord ("implement"), bWord ("create"),
     lits ("function") ++ [RElem.plus CClass.space, RElem.plus CClass.word],
     lits ("def") ++ [RElem.plus CClass.space, RElem.plus CClass.word],
     lits ("class") ++ [RElem.plus CClass.space, RElem.plus CClass.word],
     lits ("export") ++ [RElem.plus CClass.space],
     lits ("import") ++ [RElem.plus CClass.space]]),
   (("refactoring"),
    [bWord ("refactor"), bWord ("clean"), bWord ("optimize"),
     lits ("rename"), lits ("move"), lits ("extract")]),
   (("tests"),
    [bWord ("test"), bWord ("spec"), lits ("describe("), lits ("it("),
     lits ("assert"), lits ("expect("), lits ("@test")]),
   (("docs"),
    [lits ("README"), lits (".md"), lits ("documentation"), lits ("comment"),
     lits ("#") ++ [RElem.cls CClass.space],
     lits ("/**"), lits ("\"\"\"")]),
   (("style"),
    [lits ("format"), lits ("indent"), lits ("whitespace"), lits ("style"),
     lits (".css"), lits (".scss"), lits ("color:"), lits ("font-")])]

/-- The pattern-scoring loop of `analyze_diff_content`: per category, sum
the match counts of its pattern list over the diff text and keep the
category only when the sum is positive. -/
def detectPatterns (diff : String) : List (String × Nat) :=
  (patternsTable.map
      (fun cp => (cp.1, (cp.2.map (fun p => countPattern p diff)).sum))).filter
    (fun cp => decide (0 < cp.2))

/-- Converting the (possibly falsy) selected diff result into the score map:
`if not result or not result.stdout: return {}`, else scan the stdout. -/
def scoreOf : RunGitRet → List (String × Nat)
  | RunGitRet.output r => if r.stdout = "" then [] else detectPatterns r.stdout
  | _ => []

/-- Model of `analyze_diff_content` from the source, with its spawn trace.  Note the
faithful modelling of the fallback condition: Python tests `if not result:`
on the value returned by `run_git(["diff", "--cached"], return_output=True)`
— a `CompletedProcess` when a repository is selected, which is *always*
truthy — so the fallback `run_git(["diff"])` fires only when that value is
falsy (timeout or spawn error), never merely because the staged diff text is
empty. -/
def analyze_diff_content (repo : Option String) (env : GitEnv) :
    List (String × Nat) × List (List String) :=
  match repo with
  | none => ([], [])
  | some p =>
    if pyTruthyRet (run_git (some p) env ["diff", "--cached"] true) = true then
      (scoreOf (run_git (some p) env ["diff", "--cached"] true),
       run_git_spawns (some p) ["diff", "--cached"])
    else
      (scoreOf (run_git (some p) env ["diff"] true),
       run_git_spawns (some p) ["diff", "--cached"] ++ run_git_spawns (some p) ["diff"])

/-- The extension-based category of one file in `get_file_extension_stats`
(first matching extension set, default `other`). -/
def fileCategory (f : String) : String :=
  if fileExt f ∈ [(".py"), (".js"), (".ts"), (".java"), (".cpp"), (".c"), (".go"), (".rs")] then ("code")
  else if fileExt f ∈ [(".css"), (".scss"), (".less"), (".html"), (".vue"), (".jsx"), (".tsx")] then ("frontend")
  else if fileExt f ∈ [(".md"), (".txt"), (".rst")] then ("docs")
  else if fileExt f ∈ [(".json"), (".yaml"), (".yml"), (".xml"), (".toml")] then ("config")
  else if fileExt f ∈ [(".sql")] then ("database")
  else if fileExt f ∈ [(".png"), (".jpg"), (".jpeg"), (".gif"), (".svg")] then ("images")
  else ("other")

/-- The `categories` component of `get_file_extension_stats`: the files of a
given category, in input order (each file is appended to exactly one
category by the if/elif chain of the source). -/
def categoriesOf (files : List String) (cat : String) : List String :=
  files.filter (fun f => decide (fileCategory f = cat))

/-- The check that key k is present in the detected score map with a count
strictly above the threshold t (a Python key-membership test followed by a
comparison of the looked-up count). -/
def patGt (m : List (String × Nat)) (k : String) (t : Nat) : Bool :=
  match m.lookup k with
  | some n => decide (t < n)
  | none => false

/-- The volume fallback of `generate_commit_suggestions` (source lines
634-642): exactly one generic suggestion keyed on `total`. -/
def volumeSuggestion (ci : ChangeSet) : String :=
  if ci.total = 1 then
    ("📝 Update: Atualiza ") ++
      pathName ((ci.added ++ ci.modified ++ ci.deleted ++ ci.renamed).headD ("arquivo"))
  else if ci.total ≤ 3 then
    ("🔄 Update: Pequenas atualizações (") ++ toString ci.total ++ (" arquivos)")
  else
    ("🚀 Major: Grandes mudanças (") ++ toString ci.total ++ (" arquivos)")

/-- The twelve conditional rule blocks of `generate_commit_suggestions`, in
source order; each appends zero, one or two strings to `suggestions`. -/
def rawRuleSuggestions (ci : ChangeSet) (repo : Option String) (env : GitEnv) :
    List String :=
  (if patGt (analyze_diff_content repo env).1 ("bug_fixes") 2 then
     ["🐛 Fix: Corrige bugs encontrados", "🔧 Bugfix: Resolve problemas identificados"] else [])
  ++ (if patGt (analyze_diff_content repo env).1 ("features") 3 then
     ["✨ Feat: Adiciona nova funcionalidade", "🚀 Feature: Implementa nova feature"] else [])
  ++ (if patGt (analyze_diff_content repo env).1 ("refactoring") 1 then
     ["♻️ Refactor: Reestrutura código", "🔨 Refactor: Melhora estrutura do código"] else [])
  ++ (if patGt (analyze_diff_content repo env).1 ("tests") 2 then
     ["✅ Test: Adiciona/atualiza testes", "🧪 Tests: Melhora cobertura de testes"] else [])
  ++ (if patGt (analyze_diff_content repo env).1 ("docs") 1 then
     ["📝 Docs: Atualiza documentação", "📚 Documentation: Melhora docs do projeto"] else [])
  ++ (if patGt (analyze_diff_content repo env).1 ("style") 2 then
     ["💄 Style: Ajustes de formatação e estilo", "🎨 UI: Melhorias visuais"] else [])
  ++ (if 0 < (categoriesOf (ci.added ++ ci.modified ++ ci.deleted ++ ci.renamed) ("config")).length then
     ["⚙️ Config: Atualiza configurações"] else [])
  ++ (if 0 < (categoriesOf (ci.added ++ ci.modified ++ ci.deleted ++ ci.renamed) ("database")).length then
     ["🗃️ Database: Atualiza esquemas/queries"] else [])
  ++ (if (categoriesOf (ci.added ++ ci.modified ++ ci.deleted ++ ci.renamed) ("code")).length ≤
          (categoriesOf (ci.added ++ ci.modified ++ ci.deleted ++ ci.renamed) ("frontend")).length ∧
        (categoriesOf (ci.added ++ ci.modified ++ ci.deleted ++ ci.renamed) ("frontend")) ≠ [] then
     ["💻 UI: Atualiza interface do usuário", "🌐 Frontend: Melhorias no frontend"] else [])
  ++ (if ci.modified.length + ci.deleted.length < ci.added.length then
     ["➕ Add: Adiciona " ++ toString ci.added.length ++ " novos arquivos"] else [])
  ++ (if 0 < ci.deleted.length then
     ["🗑️ Remove: Remove " ++ toString ci.deleted.length ++ " arquivos"] else [])
  ++ (if 0 < ci.renamed.length then
     ["🚚 Rename: Reorganiza " ++ toString ci.renamed.length ++ " arquivos"] else [])

/-- The full `suggestions` list assembled by `generate_commit_suggestions`
before deduplication: the twelve rule blocks followed by the unconditional
volume fallback. -/
def rawSuggestions (ci : ChangeSet) (repo : Option String) (env : GitEnv) :
    List String :=
  rawRuleSuggestions ci repo env ++ [volumeSuggestion ci]

/-- The `seen`-set deduplication loop of `generate_commit_suggestions`:
`seen` holds the strings already emitted, `unique` the output so far. -/
def pyDedupGo (seen unique : List String) : List String → List String
  | [] => unique
  | s :: rest =>
    if s ∈ seen then pyDedupGo seen unique rest
    else pyDedupGo (s :: seen) (unique ++ [s]) rest

/-- Duplicate removal keeping the first occurrence, as in the source. -/
def pyDedup (l : List String) : List String := pyDedupGo [] [] l

/-- Model of `generate_commit_suggestions` from the source: empty for a falsy
`changes_info`, otherwise the assembled suggestions deduplicated and then
truncated to the first 8 entries. -/
def generate_commit_suggestions (changes_info : Option ChangeSet)
    (repo : Option String) (env : GitEnv) : List String :=
  match changes_info with
  | none => []
  | some ci => (pyDedup (rawSuggestions ci repo env)).take 8

/-- Model of `smart_status` from the source, reduced to its data flow: it returns
`None` (short-circuit) when `analyze_changes` does, and otherwise the
generated suggestion list.  The boolean records whether
`generate_commit_suggestions` was invoked on this path. -/
def smart_status (repo : Option String) (env : GitEnv) :
    Option (List String) × Bool :=
  match analyze_changes repo env with
  | none => (none, false)
  | some ci => (some (generate_commit_suggestions (some ci) repo env), true)

/-- Truthiness of `bool(result and result.stdout.strip())` on a `run_git` return value:
true precisely for a completed process whose stripped stdout is non-empty. -/
def hasUnpushed : RunGitRet → Bool
  | RunGitRet.output r => pyStrip r.stdout != ""
  | _ => false

/-- Outcome of `quick_sync` (each constructor is a terminal
print-and-return point of the source). -/
inductive SyncResult where
  | noRepo
  | noBranch
  | pullFailed
  | pushed
  | pushFailed
  | nothingToPush
deriving DecidableEq

/-- Model of `quick_sync` from the source, with its spawn trace: determine the
current branch, pull (stop on failure), check `@{u}..HEAD` for unpushed
commits, and push only when that check is non-empty. -/
def quick_sync (repo : Option String) (env : GitEnv) :
    SyncResult × List (List String) :=
  match repo with
  | none => (SyncResult.noRepo, [])
  | some p =>
    match run_git (some p) env ["branch", "--show-current"] true with
    | RunGitRet.output r =>
      if pyTruthyRet (run_git (some p) env ["pull", "origin", pyStrip r.stdout] false) = true then
        if hasUnpushed (run_git (some p) env ["log", "--oneline", "@\x7bu\x7d..HEAD"] true) = true then
          (if pyTruthyRet (run_git (some p) env ["push", "origin", pyStrip r.stdout] false) = true
             then SyncResult.pushed else SyncResult.pushFailed,
           run_git_spawns (some p) ["branch", "--show-current"]
             ++ run_git_spawns (some p) ["pull", "origin", pyStrip r.stdout]
             ++ run_git_spawns (some p) ["log", "--oneline", "@\x7bu\x7d..HEAD"]
             ++ run_git_spawns (some p) ["push", "origin", pyStrip r.stdout])
        else
          (SyncResult.nothingToPush,
           run_git_spawns (some p) ["branch", "--show-current"]
             ++ run_git_spawns (some p) ["pull", "origin", pyStrip r.stdout]
             ++ run_git_spawns (some p) ["log", "--oneline", "@\x7bu\x7d..HEAD"])
      else
        (SyncResult.pullFailed,
         run_git_spawns (some p) ["branch", "--show-current"]
           ++ run_git_spawns (some p) ["pull", "origin", pyStrip r.stdout])
    | _ => (SyncResult.noBranch, run_git_spawns (some p) ["branch", "--show-current"])

/-- Outcome of `quick_push`. -/
inductive PushResult where
  | noRepo
  | noBranch
  | nothingToSend
  | pushed
  | pushFailed
deriving DecidableEq

/-- Body of `quick_push` after the branch is determined (source lines
400-423): check for commits to send, repair a missing upstream link, then
push.  `t0` is the trace accumulated while determining the branch. -/
def quickPushBody (repo : Option String) (env : GitEnv) (branch : String)
    (t0 : List (List String)) : PushResult × List (List String) :=
  match run_git repo env ["log", "--oneline", "origin/" ++ branch ++ ".." ++ branch] true with
  | RunGitRet.output r =>
    if pyStrip r.stdout = "" then
      (PushResult.nothingToSend,
       t0 ++ run_git_spawns repo ["log", "--oneline", "origin/" ++ branch ++ ".." ++ branch])
    else
      (match run_git repo env ["push", "origin", branch] true with
       | RunGitRet.output rp =>
           if rp.returncode == 0 then PushResult.pushed else PushResult.pushFailed
       | _ => PushResult.pushFailed,
       t0 ++ run_git_spawns repo ["log", "--oneline", "origin/" ++ branch ++ ".." ++ branch]
          ++ run_git_spawns repo ["branch", "-vv"]
          ++ (match run_git repo env ["branch", "-vv"] true with
              | RunGitRet.output rv =>
                  if pyInStr ("[origin/" ++ branch ++ "]") rv.stdout = true then []
                  else run_git_spawns repo ["branch", "--set-upstream-to", "origin/" ++ branch, branch]
              | _ => [])
          ++ run_git_spawns repo ["push", "origin", branch])
  | _ =>
    (PushResult.nothingToSend,
     t0 ++ run_git_spawns repo ["log", "--oneline", "origin/" ++ branch ++ ".." ++ branch])

/-- Model of `quick_push` from the source: requires a repository, determines the
branch (argument or `branch --show-current`), then runs the push body. -/
def quick_push (repo : Option String) (env : GitEnv) (branchArg : Option String) :
    PushResult × List (List String) :=
  match repo with
  | none => (PushResult.noRepo, [])
  | some p =>
    match branchArg with
    | some b => quickPushBody (some p) env b []
    | none =>
      match run_git (some p) env ["branch", "--show-current"] true with
      | RunGitRet.output r =>
          if pyStrip r.stdout = "" then
            (PushResult.noBranch, run_git_spawns (some p) ["branch", "--show-current"])
          else
            quickPushBody (some p) env (pyStrip r.stdout)
              (run_git_spawns (some p) ["branch", "--show-current"])
      | _ => (PushResult.noBranch, run_git_spawns (some p) ["branch", "--show-current"])

/-- A configuration value: Python `None`, a string, or a coerced boolean. -/
inductive ConfigVal where
  | vnone
  | vstr (s : String)
  | vbool (b : Bool)
deriving DecidableEq

/-- The in-memory configuration dictionary, as an insertion-ordered
association list (Python dicts preserve insertion order). -/
def Config : Type := List (String × ConfigVal)

/-- Python truthiness of `config.get(key)`: absent keys and `None` are
falsy, strings are truthy iff non-empty, booleans are themselves. -/
def pyTruthyVal : Option ConfigVal → Bool
  | none => false
  | some ConfigVal.vnone => false
  | some (ConfigVal.vstr s) => s != ""
  | some (ConfigVal.vbool b) => b

/-- The raw string stored under a (truthy, string-valued) key, as passed to
`git config`. -/
def cfgStrVal : Option ConfigVal → String
  | some (ConfigVal.vstr s) => s
  | _ => ("")

/-- The tokens `set_config` coerces to `True` for boolean keys. -/
def truthyTokens : List String := [("true"), ("1"), ("yes"), ("sim")]

/-- In-place update of an existing key (Python `config[key] = value`). -/
def assocSet (cfg : Config) (key : String) (v : ConfigVal) : Config :=
  cfg.map (fun kv => if kv.1 = key then (key, v) else kv)

/-- Model of `set_config` from the source.  The boolean is true iff `save_config()`
was called (i.e. the mutation was persisted): a key not currently in the
dictionary is rejected, the store is left untouched, and nothing is saved. -/
def set_config (cfg : Config) (key value : String) : Config × Bool :=
  if (List.lookup key cfg).isSome then
    (assocSet cfg key
       (if key ∈ [("auto_fetch")] then
          ConfigVal.vbool (decide (pyLower value ∈ truthyTokens))
        else ConfigVal.vstr value),
     true)
  else (cfg, false)

/-- Scope flag chosen by `set_git_identity(repo_specific=True)`: `--local`
when a repository is selected, `--global` otherwise. -/
def identityScope (repo : Option String) : List String :=
  match repo with
  | some _ => ["--local"]
  | none => ["--global"]

/-- Model of `set_git_identity(repo_specific=True)` from the source: fails when the
identity is not configured, otherwise issues the two `git config` commands
and reports success. -/
def set_git_identity (repo : Option String) (cfg : Config) :
    Bool × List (List String) :=
  if !(pyTruthyVal (List.lookup ("user.name") cfg))
      || !(pyTruthyVal (List.lookup ("user.email") cfg)) then
    (false, [])
  else
    (true,
     run_git_spawns repo
       (["config"] ++ identityScope repo ++ ["user.name", cfgStrVal (List.lookup ("user.name") cfg)])
       ++ run_git_spawns repo
       (["config"] ++ identityScope repo ++ ["user.email", cfgStrVal (List.lookup ("user.email") cfg)]))

/-- Outcome of `quick_commit`. -/
inductive CommitResult where
  | addFailed
  | identityMissing
  | identityFailed
  | committed
  | commitFailed
deriving DecidableEq

/-- The upstream-tracking check of `quick_commit` (source lines 130-137),
with its spawn trace: read the current branch; if that result is truthy,
read the verbose branch listing and, when it lacks `[origin/<branch>]`,
issue the upstream-set command. -/
def commitTrackSpawns (repo : Option String) (env : GitEnv) : List (List String) :=
  match run_git repo env ["branch", "--show-current"] true with
  | RunGitRet.output r =>
    run_git_spawns repo ["branch", "--show-current"]
      ++ run_git_spawns repo ["branch", "-vv"]
      ++ (match run_git repo env ["branch", "-vv"] true with
          | RunGitRet.output rv =>
              if pyInStr ("[origin/" ++ pyStrip r.stdout ++ "]") rv.stdout = true then []
              else run_git_spawns repo
                ["branch", "--set-upstream-to", "origin/" ++ pyStrip r.stdout, pyStrip r.stdout]
          | _ => [])
  | _ => run_git_spawns repo ["branch", "--show-current"]

/-- Model of `quick_commit` from the source: stage everything, require a configured
identity (the interactive prompt that would otherwise collect one is not
modelled; the theorems assume the identity is configured), configure it
locally, repair missing upstream tracking, then commit. -/
def quick_commit (repo : Option String) (cfg : Config) (env : GitEnv)
    (message : String) : CommitResult × List (List String) :=
  if !(pyTruthyRet (run_git repo env ["add", "."] false)) then
    (CommitResult.addFailed, run_git_spawns repo ["add", "."])
  else if !(pyTruthyVal (List.lookup ("user.name") cfg))
      || !(pyTruthyVal (List.lookup ("user.email") cfg)) then
    (CommitResult.identityMissing, run_git_spawns repo ["add", "."])
  else
    match set_git_identity repo cfg with
    | (false, tId) => (CommitResult.identityFailed, run_git_spawns repo ["add", "."] ++ tId)
    | (true, tId) =>
      (if pyTruthyRet (run_git repo env ["commit", "-m", message] false) then
         CommitResult.committed
       else CommitResult.commitFailed,
       run_git_spawns repo ["add", "."] ++ tId ++ commitTrackSpawns repo env
         ++ run_git_spawns repo ["commit", "-m", message])

/-- The substrings `auto_stage_and_suggest` refuses to stage. -/
def stageExcludePatterns : List String :=
  [(".log"), (".tmp"), ("node_modules/"), (".env"), ("__pycache__/"), (".pyc")]

/-- The `files_to_add` computation of `auto_stage_and_suggest`: one filename
per status line (`line[3:]`), keeping only those whose lowercased path
contains none of the excluded substrings. -/
def auto_stage_files (stdout : String) : List String :=
  ((pySplitLines (pyStrip stdout)).map (fun line => pyDrop 3 line)).filter
    (fun filename =>
      !(stageExcludePatterns.any (fun pat => pyInStr pat (pyLower filename))))

/-- Outcome of the staging phase of `auto_stage_and_suggest`. -/
inductive StageResult where
  | noRepo
  | noResult
  | noChanges
  | staged (n : Nat)
  | nothingSuitable
deriving DecidableEq

/-- The staging phase of `auto_stage_and_suggest` with its spawn trace (the
subsequent suggestion display and interactive commit prompt are outside the
modelled scope): read the porcelain status, compute `files_to_add`, and run
`git add <file>` for each surviving file, one process per file. -/
def auto_stage_and_suggest (repo : Option String) (env : GitEnv) :
    StageResult × List (List String) :=
  match repo with
  | none => (StageResult.noRepo, [])
  | some p =>
    match run_git (some p) env ["status", "--porcelain"] true with
    | RunGitRet.output r =>
      if pyStrip r.stdout = "" then
        (StageResult.noChanges, run_git_spawns (some p) ["status", "--porcelain"])
      else
        if (auto_stage_files r.stdout).isEmpty then
          (StageResult.nothingSuitable, run_git_spawns (some p) ["status", "--porcelain"])
        else
          (StageResult.staged (auto_stage_files r.stdout).length,
           run_git_spawns (some p) ["status", "--porcelain"]
             ++ ((auto_stage_files r.stdout).map
                  (fun f => run_git_spawns (some p) ["add", f])).flatten)
    | _ => (StageResult.noResult, run_git_spawns (some p) ["status", "--porcelain"])

/-- Concrete environment: staged diff exits 0 with empty output while the
working-tree diff has content that the classifier scores. -/
def envStagedEmpty : GitEnv := fun args =>
  if args = [("diff")] then RunOutcome.res (GitRes.mk 0 ("fix bug error") (""))
  else RunOutcome.res (GitRes.mk 0 ("") (""))

/-- Concrete environment: the current branch is `main` and the pull fails
(exit code 1); every other command succeeds with empty output. -/
def envPullFails : GitEnv := fun args =>
  if args = ["branch", "--show-current"] then RunOutcome.res (GitRes.mk 0 ("main") (""))
  else if args = ["pull", "origin", "main"] then RunOutcome.res (GitRes.mk 1 ("") (""))
  else RunOutcome.res (GitRes.mk 0 ("") (""))

/-- Concrete environment: branch `main` has an unpushed commit and its
verbose branch listing lacks the `[origin/main]` upstream marker. -/
def envNoUpstream : GitEnv := fun args =>
  if args = ["branch", "--show-current"] then RunOutcome.res (GitRes.mk 0 ("main") (""))
  else if args = ["log", "--oneline", "origin/main..main"] then
    RunOutcome.res (GitRes.mk 0 ("abc1234 wip") (""))
  else if args = ["branch", "-vv"] then
    RunOutcome.res (GitRes.mk 0 ("* main abc1234 wip") (""))
  else RunOutcome.res (GitRes.mk 0 ("") (""))

/-- Configuration with a git identity set, for the commit-flow scenario. -/
def cfgWithIdentity : Config :=
  [(("user.name"), ConfigVal.vstr ("Dev")), (("user.email"), ConfigVal.vstr ("dev@example.com"))]

/-- Concrete environment in which every git command exits 0 with empty
output (in particular the porcelain status is empty). -/
def envAllClean : GitEnv := fun _ => RunOutcome.res (GitRes.mk 0 ("") (""))

/-- Concrete environment whose porcelain status lists three files, one of
which (`debug.log`) matches an excluded pattern. -/
def envStatusMixed : GitEnv := fun args =>
  if args = ["status", "--porcelain"] then
    RunOutcome.res (GitRes.mk 0 (" M src/app.py\n?? debug.log\nA  notes.txt") (""))
  else RunOutcome.res (GitRes.mk 0 ("") (""))

/-- The startup configuration dictionary of the source (`config = {...}`). -/
def defaultConfig : Config :=
  [(("github_token"), ConfigVal.vnone), (("default_branch"), ConfigVal.vstr ("main")),
   (("auto_fetch"), ConfigVal.vbool true), (("editor"), ConfigVal.vstr ("nano"))]

/-- A one-file change set, for the volume-fallback scenario. -/
def oneFileChangeSet : ChangeSet := ChangeSet.mk [] [("src/app.py")] [] [] 1

theorem analyzeStep_class (cs : ChangeSet) (line : String) :
    analyzeStep cs line =
      match lineClass line with
      | some FileCat.added => { cs with added := cs.added ++ [pyDrop 3 line] }
      | some FileCat.modified => { cs with modified := cs.modified ++ [pyDrop 3 line] }
      | some FileCat.deleted => { cs with deleted := cs.deleted ++ [pyDrop 3 line] }
      | some FileCat.renamed => { cs with renamed := cs.renamed ++ [pyDrop 3 line] }
      | none => cs := by
  unfold analyzeStep lineClass
  split_ifs <;> rfl

theorem foldl_analyzeStep_added (lines : List String) : ∀ cs : ChangeSet,
    (List.foldl analyzeStep cs lines).added =
      cs.added ++ (lines.filter (isCat FileCat.added)).map (pyDrop 3) := by
  induction lines with
  | nil => intro cs; simp
  | cons l ls ih =>
    intro cs
    rw [List.foldl_cons, ih, analyzeStep_class]
    rcases h : lineClass l with _ | c
    · simp [isCat, List.filter_cons, h]
    · cases c <;> simp [isCat, List.filter_cons, h]

theorem foldl_analyzeStep_modified (lines : List String) : ∀ cs : ChangeSet,
    (List.foldl analyzeStep cs lines).modified =
      cs.modified ++ (lines.filter (isCat FileCat.modified)).map (pyDrop 3) := by
  induction lines with
  | nil => intro cs; simp
  | cons l ls ih =>
    intro cs
    rw [List.foldl_cons, ih, analyzeStep_class]
    rcases h : lineClass l with _ | c
    · simp [isCat, List.filter_cons, h]
    · cases c <;> simp [isCat, List.filter_cons, h]

theorem foldl_analyzeStep_deleted (lines : List String) : ∀ cs : ChangeSet,
    (List.foldl analyzeStep cs lines).deleted =
      cs.deleted ++ (lines.filter (isCat FileCat.deleted)).map (pyDrop 3) := by
  induction lines with
  | nil => intro cs; simp
  | cons l ls ih =>
    intro cs
    rw [List.foldl_cons, ih, analyzeStep_class]
    rcases h : lineClass l with _ | c
    · simp [isCat, List.filter_cons, h]
    · cases c <;> simp [isCat, List.filter_cons, h]

theorem foldl_analyzeStep_renamed (lines : List String) : ∀ cs : ChangeSet,
    (List.foldl analyzeStep cs lines).renamed =
      cs.renamed ++ (lines.filter (isCat FileCat.renamed)).map (pyDrop 3) := by
  induction lines with
  | nil => intro cs; simp
  | cons l ls ih =>
    intro cs
    rw [List.foldl_cons, ih, analyzeStep_class]
    rcases h : lineClass l with _ | c
    · simp [isCat, List.filter_cons, h]
    · cases c <;> simp [isCat, List.filter_cons, h]

theorem filter_class_length_sum (lines : List String) :
    (lines.filter (isCat FileCat.added)).length
      + (lines.filter (isCat FileCat.modified)).length
      + (lines.filter (isCat FileCat.deleted)).length
      + (lines.filter (isCat FileCat.renamed)).length ≤ lines.length := by
  induction lines with
  | nil => simp
  | cons l ls ih =>
    rcases h : lineClass l with _ | c
    · simp only [List.filter_cons, isCat, h, List.length_cons]
      simp only [decide_eq_true_eq, reduceCtorEq, if_false]
      omega
    · cases c <;>
        · simp only [List.filter_cons, isCat, h, List.length_cons]
          simp [decide_eq_true_eq]
          omega

/-- C1.  `analyze_changes` classifies every porcelain line by the first
matching status code in the fixed order `A`, `M`, `D`, `R`: each category
list is exactly the (order-preserving) filter of the input lines whose
first-match class is that category, mapped to `line[3:]`; lines matching no
code appear in none of the four lists; `total` is the number of input lines;
and the four list lengths sum to at most `total`. -/
theorem analyze_changes_partition (lines : List String) :
    (categorize lines).added = ((lines.filter (isCat FileCat.added)).map (pyDrop 3))
    ∧ (categorize lines).modified = ((lines.filter (isCat FileCat.modified)).map (pyDrop 3))
    ∧ (categorize lines).deleted = ((lines.filter (isCat FileCat.deleted)).map (pyDrop 3))
    ∧ (categorize lines).renamed = ((lines.filter (isCat FileCat.renamed)).map (pyDrop 3))
    ∧ (categorize lines).total = lines.length
    ∧ (categorize lines).added.length + (categorize lines).modified.length
        + (categorize lines).deleted.length + (categorize lines).renamed.length
        ≤ (categorize lines).total := by
  have ha : (categorize lines).added = (lines.filter (isCat FileCat.added)).map (pyDrop 3) := by
    show (List.foldl analyzeStep (ChangeSet.mk [] [] [] [] 0) lines).added = _
    rw [foldl_analyzeStep_added]
    rfl
  have hm : (categorize lines).modified = (lines.filter (isCat FileCat.modified)).map (pyDrop 3) := by
    show (List.foldl analyzeStep (ChangeSet.mk [] [] [] [] 0) lines).modified = _
    rw [foldl_analyzeStep_modified]
    rfl
  have hd : (categorize lines).deleted = (lines.filter (isCat FileCat.deleted)).map (pyDrop 3) := by
    show (List.foldl analyzeStep (ChangeSet.mk [] [] [] [] 0) lines).deleted = _
    rw [foldl_analyzeStep_deleted]
    rfl
  have hr : (categorize lines).renamed = (lines.filter (isCat FileCat.renamed)).map (pyDrop 3) := by
    show (List.foldl analyzeStep (ChangeSet.mk [] [] [] [] 0) lines).renamed = _
    rw [foldl_analyzeStep_renamed]
    rfl
  have ht : (categorize lines).total = lines.length := rfl
  refine ⟨ha, hm, hd, hr, ht, ?_⟩
  rw [ha, hm, hd, hr, ht]
  simpa using filter_class_length_sum lines

theorem pyDedupGo_nodup : ∀ (l seen unique : List String),
    unique.Nodup → (∀ x ∈ unique, x ∈ seen) → (pyDedupGo seen unique l).Nodup := by
  intro l
  induction l with
  | nil => intro seen unique h _; simpa [pyDedupGo] using h
  | cons s rest ih =>
    intro seen unique h hsub
    by_cases hs : s ∈ seen
    · simpa [pyDedupGo, hs] using ih seen unique h hsub
    · simp only [pyDedupGo, hs, if_neg, ite_false]
      apply ih
      · refine List.Nodup.append h (by simp) ?_
        intro a ha hb
        simp only [List.mem_singleton] at hb
        subst hb
        exact hs (hsub a ha)
      · intro x hx
        rcases List.mem_append.mp hx with hx | hx
        · exact List.mem_cons_of_mem s (hsub x hx)
        · simp only [List.mem_singleton] at hx
          subst hx
          exact List.mem_cons_self x seen

theorem pyDedupGo_length : ∀ (l seen unique : List String),
    unique.length ≤ (pyDedupGo seen unique l).length := by
  intro l
  induction l with
  | nil => intro seen unique; simp [pyDedupGo]
  | cons s rest ih =>
    intro seen unique
    by_cases hs : s ∈ seen
    · simpa [pyDedupGo, hs] using ih seen unique
    · simp only [pyDedupGo, hs, ite_false]
      calc unique.length ≤ (unique ++ [s]).length := by simp
        _ ≤ _ := ih (s :: seen) (unique ++ [s])

theorem pyDedupGo_mem : ∀ (l seen unique : List String) (x : String),
    x ∈ pyDedupGo seen unique l → x ∈ unique ∨ x ∈ l := by
  intro l
  induction l with
  | nil => intro seen unique x hx; exact Or.inl (by simpa [pyDedupGo] using hx)
  | cons s rest ih =>
    intro seen unique x hx
    by_cases hs : s ∈ seen
    · rcases ih seen unique x (by simpa [pyDedupGo, hs] using hx) with h | h
      · exact Or.inl h
      · exact Or.inr (List.mem_cons_of_mem s h)
    · rcases ih (s :: seen) (unique ++ [s]) x (by simpa [pyDedupGo, hs] using hx) with h | h
      · rcases List.mem_append.mp h with h | h
        · exact Or.inl h
        · simp only [List.mem_singleton] at h
          exact Or.inr (h ▸ List.mem_cons_self s rest)
      · exact Or.inr (List.mem_cons_of_mem s h)

theorem pyDedup_nodup (l : List String) : (pyDedup l).Nodup :=
  pyDedupGo_nodup l [] [] List.nodup_nil (by simp)

theorem pyDedup_mem (l : List String) (x : String) (hx : x ∈ pyDedup l) : x ∈ l := by
  rcases pyDedupGo_mem l [] [] x hx with h | h
  · simp at h
  · exact h

theorem pyDedup_ne_nil (l : List String) (h : l ≠ []) : 1 ≤ (pyDedup l).length := by
  match l with
  | [] => exact absurd rfl h
  | s :: rest =>
    show 1 ≤ (pyDedupGo [] [] (s :: rest)).length
    have : (pyDedupGo [] [] (s :: rest)) = pyDedupGo [s] ([] ++ [s]) rest := by
      simp [pyDedupGo]
    rw [this]
    calc 1 = ([] ++ [s] : List String).length := by simp
      _ ≤ _ := pyDedupGo_length rest [s] ([] ++ [s])

/-- C2.  `generate_commit_suggestions` deduplicates the assembled
suggestions by exact string equality keeping first occurrences and only then
truncates to the first 8 entries; consequently, for every change set and
every subprocess environment, its output has length at most 8, contains no
duplicate strings, and contains only strings the rules appended. -/
theorem generate_suggestions_dedup_cap (ci : ChangeSet) (repo : Option String)
    (env : GitEnv) :
    generate_commit_suggestions (some ci) repo env
        = (pyDedup (rawSuggestions ci repo env)).take 8
    ∧ (generate_commit_suggestions (some ci) repo env).length ≤ 8
    ∧ (generate_commit_suggestions (some ci) repo env).Nodup
    ∧ ∀ s ∈ generate_commit_suggestions (some ci) repo env,
        s ∈ rawSuggestions ci repo env := by
  refine ⟨rfl, ?_, ?_, ?_⟩
  · show ((pyDedup (rawSuggestions ci repo env)).take 8).length ≤ 8
    rw [List.length_take]
    exact min_le_left 8 _
  · exact (pyDedup_nodup (rawSuggestions ci repo env)).sublist (List.take_sublist 8 _)
  · intro s hs
    exact pyDedup_mem _ s ((List.take_sublist 8 _).mem hs)

/-- C9.  For every change set with at least one change, the generator emits
at least one suggestion: the assembled list always ends with exactly one
volume-fallback suggestion (single-file wording when `total = 1`,
small-update wording when `total ≤ 3`, large-change wording otherwise), so
the final output length is between 1 and 8. -/
theorem generate_nonempty_of_changes (ci : ChangeSet) (repo : Option String)
    (env : GitEnv) (_h : 1 ≤ ci.total) :
    1 ≤ (generate_commit_suggestions (some ci) repo env).length
    ∧ (generate_commit_suggestions (some ci) repo env).length ≤ 8
    ∧ rawSuggestions ci repo env
        = rawRuleSuggestions ci repo env ++ [volumeSuggestion ci] := by
  refine ⟨?_, ?_, rfl⟩
  · show 1 ≤ ((pyDedup (rawSuggestions ci repo env)).take 8).length
    rw [List.length_take]
    have hne : rawSuggestions ci repo env ≠ [] := by
      unfold rawSuggestions
      simp
    have := pyDedup_ne_nil (rawSuggestions ci repo env) hne
    omega
  · show ((pyDedup (rawSuggestions ci repo env)).take 8).length ≤ 8
    rw [List.length_take]
    exact min_le_left 8 _

/-- Witness for C9 at a concrete one-file change set. -/
theorem generate_nonempty_of_changes_witness :
    1 ≤ oneFileChangeSet.total
    ∧ (1 ≤ (generate_commit_suggestions (some oneFileChangeSet) none envAllClean).length
       ∧ (generate_commit_suggestions (some oneFileChangeSet) none envAllClean).length ≤ 8
       ∧ rawSuggestions oneFileChangeSet none envAllClean
           = rawRuleSuggestions oneFileChangeSet none envAllClean
               ++ [volumeSuggestion oneFileChangeSet]) :=
  ⟨by decide, generate_nonempty_of_changes oneFileChangeSet none envAllClean (by decide)⟩

/-- C3 (code bug).  In the source, the fallback `run_git(["diff"])` is
guarded by `if not result:` on a value that is a `CompletedProcess` whenever
a repository is selected — and a `CompletedProcess` is always truthy in
Python.  Hence, at the failing input where the staged diff exits 0 with
empty stdout while the working-tree diff contains scoreable content,
`analyze_diff_content` returns the empty score map and never spawns the
working-tree `diff` command, even though the claimed (and comment-documented)
fallback would have produced `bug_fixes = 3`. -/
theorem analyze_diff_no_fallback_on_empty_staged :
    analyze_diff_content (some ("/repo")) envStagedEmpty = ([], [["diff", "--cached"]])
    ∧ detectPatterns ("fix bug error") = [(("bug_fixes"), 3)]
    ∧ envStagedEmpty [("diff")] = RunOutcome.res (GitRes.mk 0 ("fix bug error") ("")) := by
  refine ⟨by decide, by decide, by decide⟩

/-- C4.  `run_git` invoked with no selected repository fails with the
no-project sentinel (`None`) for every argument vector and flag, spawns no
backend process, and that sentinel is distinguishable from every normal
command result (a completed-process value or a boolean). -/
theorem run_git_no_project (env : GitEnv) (args : List String) (return_output : Bool) :
    run_git none env args return_output = RunGitRet.noProject
    ∧ run_git_spawns none args = []
    ∧ (∀ r : GitRes, RunGitRet.noProject ≠ RunGitRet.output r)
    ∧ (∀ b : Bool, RunGitRet.noProject ≠ RunGitRet.ok b) := by
  refine ⟨rfl, rfl, ?_, ?_⟩
  · intro r h
    exact RunGitRet.noConfusion h
  · intro b h
    exact RunGitRet.noConfusion h

/-- C5.  In `quick_sync`, when the pull step fails the operation stops with
the pull-failure result and the spawn trace contains exactly the
branch-lookup and pull commands: neither the unpushed-commit check nor the
push command is ever spawned. -/
theorem quick_sync_pull_fail_stops (p : String) (env : GitEnv) (r : GitRes)
    (hb : env ["branch", "--show-current"] = RunOutcome.res r)
    (hp : pyTruthyRet (run_git (some p) env ["pull", "origin", pyStrip r.stdout] false) = false) :
    quick_sync (some p) env =
      (SyncResult.pullFailed,
       [["branch", "--show-current"], ["pull", "origin", pyStrip r.stdout]]) := by
  have hbr : run_git (some p) env ["branch", "--show-current"] true = RunGitRet.output r := by
    simp [run_git, hb]
  simp [quick_sync, hbr, hp, run_git_spawns]

/-- Witness for C5 at a concrete environment where the pull exits 1. -/
theorem quick_sync_pull_fail_stops_witness :
    envPullFails ["branch", "--show-current"] = RunOutcome.res (GitRes.mk 0 ("main") (""))
    ∧ pyTruthyRet (run_git (some ("/repo")) envPullFails
        ["pull", "origin", pyStrip (GitRes.mk 0 ("main") ("")).stdout] false) = false
    ∧ quick_sync (some ("/repo")) envPullFails =
        (SyncResult.pullFailed,
         [["branch", "--show-current"],
          ["pull", "origin", pyStrip (GitRes.mk 0 ("main") ("")).stdout]]) :=
  ⟨by decide, by decide,
   quick_sync_pull_fail_stops ("/repo") envPullFails (GitRes.mk 0 ("main") (""))
     (by decide) (by decide)⟩

/-- C6.  When a push is attempted on a branch whose verbose branch listing
(`branch -vv`) lacks the `[origin/<branch>]` upstream marker, `quick_push`
spawns the upstream-set command immediately before the push command, and the
push is then executed; under the same conditions the commit flow
(`quick_commit`) performs the identical repair before the commit command. -/
theorem upstream_autorepair_push_and_commit (p m : String) (cfg : Config)
    (env : GitEnv) (rb rl rv : GitRes)
    (hb : env ["branch", "--show-current"] = RunOutcome.res rb)
    (hl : env ["log", "--oneline", "origin/" ++ pyStrip rb.stdout ++ ".." ++ pyStrip rb.stdout]
            = RunOutcome.res rl)
    (hlne : pyStrip rl.stdout ≠ "")
    (hv : env ["branch", "-vv"] = RunOutcome.res rv)
    (hmark : pyInStr ("[origin/" ++ pyStrip rb.stdout ++ "]") rv.stdout = false)
    (hadd : pyTruthyRet (run_git (some p) env ["add", "."] false) = true)
    (hname : pyTruthyVal (List.lookup ("user.name") cfg) = true)
    (hemail : pyTruthyVal (List.lookup ("user.email") cfg) = true) :
    (quick_push (some p) env (some (pyStrip rb.stdout))).2 =
      [["log", "--oneline", "origin/" ++ pyStrip rb.stdout ++ ".." ++ pyStrip rb.stdout],
       ["branch", "-vv"],
       ["branch", "--set-upstream-to", "origin/" ++ pyStrip rb.stdout, pyStrip rb.stdout],
       ["push", "origin", pyStrip rb.stdout]]
    ∧ (quick_commit (some p) cfg env m).2 =
      [["add", "."],
       ["config", "--local", "user.name", cfgStrVal (List.lookup ("user.name") cfg)],
       ["config", "--local", "user.email", cfgStrVal (List.lookup ("user.email") cfg)],
       ["branch", "--show-current"],
       ["branch", "-vv"],
       ["branch", "--set-upstream-to", "origin/" ++ pyStrip rb.stdout, pyStrip rb.stdout],
       ["commit", "-m", m]] := by
  have hlr : run_git (some p) env
      ["log", "--oneline", "origin/" ++ pyStrip rb.stdout ++ ".." ++ pyStrip rb.stdout] true
      = RunGitRet.output rl := by
    simp [run_git, hl]
  have hvr : run_git (some p) env ["branch", "-vv"] true = RunGitRet.output rv := by
    simp [run_git, hv]
  have hbr : run_git (some p) env ["branch", "--show-current"] true = RunGitRet.output rb := by
    simp [run_git, hb]
  constructor
  · simp [quick_push, quickPushBody, hlr, hvr, hlne, hmark, run_git_spawns]
  · simp [quick_commit, set_git_identity, commitTrackSpawns, identityScope,
      hadd, hname, hemail, hbr, hvr, hmark, run_git_spawns]

/-- Witness for C6 at a concrete environment: branch `main`, one unpushed
commit, no `[origin/main]` marker in the verbose listing, identity set. -/
theorem upstream_autorepair_push_and_commit_witness :
    envNoUpstream ["branch", "--show-current"] = RunOutcome.res (GitRes.mk 0 ("main") (""))
    ∧ envNoUpstream ["log", "--oneline",
        "origin/" ++ pyStrip (GitRes.mk 0 ("main") ("")).stdout ++ ".."
          ++ pyStrip (GitRes.mk 0 ("main") ("")).stdout]
        = RunOutcome.res (GitRes.mk 0 ("abc1234 wip") (""))
    ∧ pyStrip (GitRes.mk 0 ("abc1234 wip") ("")).stdout ≠ ""
    ∧ envNoUpstream ["branch", "-vv"] = RunOutcome.res (GitRes.mk 0 ("* main abc1234 wip") (""))
    ∧ pyInStr ("[origin/" ++ pyStrip (GitRes.mk 0 ("main") ("")).stdout ++ "]")
        (GitRes.mk 0 ("* main abc1234 wip") ("")).stdout = false
    ∧ pyTruthyRet (run_git (some ("/repo")) envNoUpstream ["add", "."] false) = true
    ∧ pyTruthyVal (List.lookup ("user.name") cfgWithIdentity) = true
    ∧ pyTruthyVal (List.lookup ("user.email") cfgWithIdentity) = true
    ∧ ((quick_push (some ("/repo")) envNoUpstream
          (some (pyStrip (GitRes.mk 0 ("main") ("")).stdout))).2 =
        [["log", "--oneline",
          "origin/" ++ pyStrip (GitRes.mk 0 ("main") ("")).stdout ++ ".."
            ++ pyStrip (GitRes.mk 0 ("main") ("")).stdout],
         ["branch", "-vv"],
         ["branch", "--set-upstream-to",
          "origin/" ++ pyStrip (GitRes.mk 0 ("main") ("")).stdout,
          pyStrip (GitRes.mk 0 ("main") ("")).stdout],
         ["push", "origin", pyStrip (GitRes.mk 0 ("main") ("")).stdout]]
       ∧ (quick_commit (some ("/repo")) cfgWithIdentity envNoUpstream ("wip")).2 =
        [["add", "."],
         ["config", "--local", "user.name", cfgStrVal (List.lookup ("user.name") cfgWithIdentity)],
         ["config", "--local", "user.email", cfgStrVal (List.lookup ("user.email") cfgWithIdentity)],
         ["branch", "--show-current"],
         ["branch", "-vv"],
         ["branch", "--set-upstream-to",
          "origin/" ++ pyStrip (GitRes.mk 0 ("main") ("")).stdout,
          pyStrip (GitRes.mk 0 ("main") ("")).stdout],
         ["commit", "-m", "wip"]]) :=
  ⟨by decide, by decide, by decide, by decide, by decide, by decide, by decide, by decide,
   upstream_autorepair_push_and_commit ("/repo") ("wip") cfgWithIdentity envNoUpstream
     (GitRes.mk 0 ("main") ("")) (GitRes.mk 0 ("abc1234 wip") (""))
     (GitRes.mk 0 ("* main abc1234 wip") (""))
     (by decide) (by decide) (by decide) (by decide) (by decide) (by decide)
     (by decide) (by decide)⟩

/-- C7.  `set_config` on a key not present in the configuration dictionary
fails: the store is returned unchanged (no key added or modified) and
nothing is persisted (`save_config` is not reached). -/
theorem set_config_unknown_key_unchanged (cfg : Config) (key value : String)
    (h : List.lookup key cfg = none) :
    set_config cfg key value = (cfg, false) := by
  simp [set_config, h]

/-- Witness for C7: setting an unknown key on the startup configuration. -/
theorem set_config_unknown_key_unchanged_witness :
    List.lookup ("github_user") defaultConfig = none
    ∧ set_config defaultConfig ("github_user") ("x") = (defaultConfig, false) :=
  ⟨by decide, set_config_unknown_key_unchanged defaultConfig ("github_user") ("x") (by decide)⟩

/-- C8.  When the porcelain status output is empty (after stripping),
`analyze_changes` returns the no-changes sentinel `None` rather than an
empty `ChangeSet`, and `smart_status` short-circuits on that sentinel:
`generate_commit_suggestions` is never invoked (the invocation flag of the
model is `false`). -/
theorem empty_status_short_circuit (p : String) (env : GitEnv) (r : GitRes)
    (hs : env ["status", "--porcelain"] = RunOutcome.res r)
    (he : pyStrip r.stdout = "") :
    analyze_changes (some p) env = none
    ∧ smart_status (some p) env = (none, false) := by
  have hsr : run_git (some p) env ["status", "--porcelain"] true = RunGitRet.output r := by
    simp [run_git, hs]
  have ha : analyze_changes (some p) env = none := by
    simp [analyze_changes, hsr, he]
  exact ⟨ha, by simp [smart_status, ha]⟩

/-- Witness for C8 at a concrete environment with empty status output. -/
theorem empty_status_short_circuit_witness :
    envAllClean ["status", "--porcelain"] = RunOutcome.res (GitRes.mk 0 ("") (""))
    ∧ pyStrip (GitRes.mk 0 ("") ("")).stdout = ""
    ∧ (analyze_changes (some ("/repo")) envAllClean = none
       ∧ smart_status (some ("/repo")) envAllClean = (none, false)) :=
  ⟨by decide, by decide,
   empty_status_short_circuit ("/repo") envAllClean (GitRes.mk 0 ("") (""))
     (by decide) (by decide)⟩

theorem flatten_map_singleton {α β : Type} (l : List α) (g : α → β) :
    (l.map (fun x => [g x])).flatten = l.map g := by
  induction l with
  | nil => rfl
  | cons x xs ih => simp [ih]

/-- C10.  The staging phase of `auto_stage_and_suggest` spawns exactly the
status query followed by one `add` command per surviving file, and every
file passed to `add` is free of all six excluded substrings in its
lowercased path — so a path containing `.log`, `.tmp`, `node_modules/`,
`.env`, `__pycache__/` or `.pyc` is never staged. -/
theorem auto_stage_excludes_patterns (p : String) (env : GitEnv) (r : GitRes)
    (hs : env ["status", "--porcelain"] = RunOutcome.res r)
    (hne : pyStrip r.stdout ≠ "") :
    (auto_stage_and_suggest (some p) env).2 =
      ["status", "--porcelain"] :: (auto_stage_files r.stdout).map (fun f => ["add", f])
    ∧ ∀ f ∈ auto_stage_files r.stdout, ∀ pat ∈ stageExcludePatterns,
        pyInStr pat (pyLower f) = false := by
  have hsr : run_git (some p) env ["status", "--porcelain"] true = RunGitRet.output r := by
    simp [run_git, hs]
  constructor
  · by_cases hfe : (auto_stage_files r.stdout).isEmpty
    · have : auto_stage_files r.stdout = [] := by
        simpa [List.isEmpty_iff] using hfe
      simp [auto_stage_and_suggest, hsr, hne, hfe, this, run_git_spawns]
    · simp only [auto_stage_and_suggest, hsr, hne, hfe, run_git_spawns]
      simp [flatten_map_singleton]
  · intro f hf pat hpat
    have hkeep := List.of_mem_filter hf
    by_contra hin
    have hin' : pyInStr pat (pyLower f) = true := by
      cases hx : pyInStr pat (pyLower f)
      · exact absurd hx hin
      · rfl
    have hany : stageExcludePatterns.any (fun q => pyInStr q (pyLower f)) = true :=
      List.any_eq_true.mpr ⟨pat, hpat, hin'⟩
    rw [hany] at hkeep
    simp at hkeep

/-- Witness for C10: a status with three files, one matching `.log`. -/
theorem auto_stage_excludes_patterns_witness :
    envStatusMixed ["status", "--porcelain"]
        = RunOutcome.res (GitRes.mk 0 (" M src/app.py\n?? debug.log\nA  notes.txt") (""))
    ∧ pyStrip (GitRes.mk 0 (" M src/app.py\n?? debug.log\nA  notes.txt") ("")).stdout ≠ ""
    ∧ ((auto_stage_and_suggest (some ("/repo")) envStatusMixed).2 =
        ["status", "--porcelain"]
          :: (auto_stage_files
                (GitRes.mk 0 (" M src/app.py\n?? debug.log\nA  notes.txt") ("")).stdout).map
               (fun f => ["add", f])
       ∧ ∀ f ∈ auto_stage_files
             (GitRes.mk 0 (" M src/app.py\n?? debug.log\nA  notes.txt") ("")).stdout,
           ∀ pat ∈ stageExcludePatterns, pyInStr pat (pyLower f) = false) :=
  ⟨by decide, by decide,
   auto_stage_excludes_patterns ("/repo") envStatusMixed
     (GitRes.mk 0 (" M src/app.py\n?? debug.log\nA  notes.txt") (""))
     (by decide) (by decide)⟩
